import Mathlib

/-!
Shallow embedding of the spf SSH port forwarder (src/main.go and
src/spf.go): the SOCKS5 negotiator of both proxy variants, the INI
configuration classifier, the runtime direction dispatch, the shared
SSH connection pool, and the library control interface.

Bytes are modelled as natural numbers (every value read from the wire
is below 256 in a real execution).  A client connection is modelled by
the list of results of the successive Read calls the handler performs:
`none` is a failed read, `some chunk` a successful read that filled the
256-byte buffer with `chunk` (so `chunk.length ≤ 256` holds in every
real execution, and the handler only ever inspects the first
`chunk.length` bytes of the buffer, which the source guarantees by
bounds checks before each slice).  Writes to the client are assumed to
succeed; the value of a handler is the list of writes it performed
together with its outcome.  Go strings are byte strings, so the
configured socks5 credentials are modelled as byte lists as well.
-/

namespace Spf

/-- Result of the RFC 1929 user and password sub-negotiation,
mirroring the return paths of `handleUsernamePasswordAuth`
(src/main.go lines 1041 to 1085). -/
inductive AuthResult
  | readErr
  | invalidVersion
  | invalidUserLen
  | invalidPassLen
  | success
  | failure
deriving DecidableEq

/-- Embedding of `(s *socks5Server) handleUsernamePasswordAuth`
(src/main.go lines 1041 to 1085): read one chunk, check version byte
0x01, extract ULEN, UNAME, PLEN, PASSWD with the source's bounds
checks, compare byte-for-byte with the configured credentials, and
write 0x01 0x00 on success or 0x01 0x01 on failure. -/
def handleUsernamePasswordAuth (cfgUser cfgPass : List Nat)
    (chunk : Option (List Nat)) : List (List Nat) × AuthResult :=
  match chunk with
  | none => ([], .readErr)
  | some buf =>
    if buf.length < 2 ∨ buf.getD 0 0 ≠ 1 then ([], .invalidVersion)
    else
      let userLen := buf.getD 1 0
      if buf.length < 2 + userLen + 1 then ([], .invalidUserLen)
      else
        let username := (buf.drop 2).take userLen
        let passLen := buf.getD (2 + userLen) 0
        if buf.length < 2 + userLen + 1 + passLen then ([], .invalidPassLen)
        else
          let password := (buf.drop (2 + userLen + 1)).take passLen
          if username = cfgUser ∧ password = cfgPass then ([[1, 0]], .success)
          else ([[1, 1]], .failure)

/-- Target address parsed from a SOCKS5 CONNECT request. -/
inductive TargetAddr
  | ipv4 (b0 b1 b2 b3 : Nat) (port : Nat)
  | domain (nameBytes : List Nat) (port : Nat)
  | ipv6 (addrBytes : List Nat) (port : Nat)
deriving DecidableEq

/-- Result of parsing the address part of a CONNECT request,
mirroring the switch on `buf[3]` in src/main.go lines 970 to 997. -/
inductive ReqOutcome
  | invalidIPv4Len
  | invalidDomainLen
  | incompleteDomain
  | invalidIPv6Len
  | unsupportedAtyp (t : Nat)
  | parsed (a : TargetAddr)
deriving DecidableEq

/-- Embedding of the ATYP switch of `handleConnection`
(src/main.go lines 970 to 997), applied to the `n` bytes returned by
the single Read of the request. -/
def parseTargetAddr (buf : List Nat) : ReqOutcome :=
  let n := buf.length
  let atyp := buf.getD 3 0
  if atyp = 1 then
    if n < 10 then .invalidIPv4Len
    else .parsed (.ipv4 (buf.getD 4 0) (buf.getD 5 0) (buf.getD 6 0) (buf.getD 7 0)
      (buf.getD 8 0 * 256 + buf.getD 9 0))
  else if atyp = 3 then
    if n < 5 then .invalidDomainLen
    else
      let domainLen := buf.getD 4 0
      if n < 5 + domainLen + 2 then .incompleteDomain
      else .parsed (.domain ((buf.drop 5).take domainLen)
        (buf.getD (5 + domainLen) 0 * 256 + buf.getD (5 + domainLen + 1) 0))
  else if atyp = 4 then
    if n < 22 then .invalidIPv6Len
    else .parsed (.ipv6 ((buf.drop 4).take 16)
      (buf.getD 20 0 * 256 + buf.getD 21 0))
  else .unsupportedAtyp atyp

/-- Overall outcome of one SOCKS5 handler run, one constructor per
return path of `(s *socks5Server) handleConnection`
(src/main.go lines 896 to 1039). -/
inductive S5Outcome
  | greetingReadErr
  | invalidVersion
  | invalidMethods
  | noAcceptableMethods
  | authFailed (r : AuthResult)
  | requestReadErr
  | invalidRequest
  | addrErr (r : ReqOutcome)
  | dialFailed (a : TargetAddr)
  | dataPhase (a : TargetAddr)
deriving DecidableEq

/-- Embedding of the request phase of `handleConnection`
(src/main.go lines 956 to 1016): one Read of the request, the
`n < 4 || buf[0] != 0x05 || buf[1] != 0x01` check, address parsing,
then the dial through the SSH client; on dial failure the reply
05 05 00 01 0.0.0.0:0 is written, on success 05 00 00 01 0.0.0.0:0
and the handler enters the bidirectional copy phase. -/
def requestPhase (reads : List (Option (List Nat))) (dialOk : Bool) :
    List (List Nat) × S5Outcome :=
  match reads with
  | [] => ([], .requestReadErr)
  | none :: _ => ([], .requestReadErr)
  | some buf :: _ =>
    if buf.length < 4 ∨ buf.getD 0 0 ≠ 5 ∨ buf.getD 1 0 ≠ 1 then ([], .invalidRequest)
    else
      match parseTargetAddr buf with
      | .parsed a =>
        if dialOk then ([[5, 0, 0, 1, 0, 0, 0, 0, 0, 0]], .dataPhase a)
        else ([[5, 5, 0, 1, 0, 0, 0, 0, 0, 0]], .dialFailed a)
      | r => ([], .addrErr r)

/-- Embedding of the method scan loops of src/main.go lines 920 to 936:
scan the offered methods for `want`, returning `want` on the first hit
(break) and 0xFF when the loop ends without a hit. -/
def selectLoop (want : Nat) : List Nat → Nat
  | [] => 255
  | m :: rest => if m = want then want else selectLoop want rest

/-- Method selected for a greeting chunk `buf`: 0x02 is searched when
both credentials are configured (`requireAuth` in src/main.go line
909), otherwise 0x00 is searched; the scanned slice is
`buf[2 : 2+numMethods]`. -/
def selectedMethod (cfgUser cfgPass : List Nat) (buf : List Nat) : Nat :=
  let methods := (buf.drop 2).take (buf.getD 1 0)
  if !cfgUser.isEmpty && !cfgPass.isEmpty then selectLoop 2 methods
  else selectLoop 0 methods

/-- Continuation of `handleConnection` after the method scan
(src/main.go lines 938 to 1016): write 05 SELECTED, fail when the
selection is 0xFF, run the RFC 1929 sub-negotiation when 0x02 was
selected, then proceed to the request phase. -/
def afterMethodSelection (cfgUser cfgPass : List Nat) (selected : Nat)
    (rest : List (Option (List Nat))) (dialOk : Bool) :
    List (List Nat) × S5Outcome :=
  if selected = 255 then ([[5, 255]], .noAcceptableMethods)
  else if selected = 2 then
    match rest with
    | [] => ([[5, 2]], .authFailed .readErr)
    | c :: rest2 =>
      let ar := handleUsernamePasswordAuth cfgUser cfgPass c
      if ar.2 = .success then
        ([5, 2] :: (ar.1 ++ (requestPhase rest2 dialOk).1), (requestPhase rest2 dialOk).2)
      else ([5, 2] :: ar.1, .authFailed ar.2)
  else ([5, selected] :: (requestPhase rest dialOk).1, (requestPhase rest dialOk).2)

/-- Embedding of `(s *socks5Server) handleConnection`
(src/main.go lines 896 to 1039): read the greeting into the 256-byte
buffer, check `n < 2 || buf[0] != 0x05`, check
`n < 2 + numMethods`, select a method, and continue with
`afterMethodSelection`. -/
def socks5HandleConnection (cfgUser cfgPass : List Nat)
    (reads : List (Option (List Nat))) (dialOk : Bool) :
    List (List Nat) × S5Outcome :=
  match reads with
  | [] => ([], .greetingReadErr)
  | none :: _ => ([], .greetingReadErr)
  | some buf :: rest =>
    if buf.length < 2 ∨ buf.getD 0 0 ≠ 5 then ([], .invalidVersion)
    else if buf.length < 2 + buf.getD 1 0 then ([], .invalidMethods)
    else afterMethodSelection cfgUser cfgPass (selectedMethod cfgUser cfgPass buf) rest dialOk

/-- Embedding of `(s *reverseSocks5Server) handleUsernamePasswordAuth`
(src/main.go lines 1284 to 1328), whose body is a verbatim duplicate
of the socks5 variant. -/
def reverseHandleUsernamePasswordAuth (cfgUser cfgPass : List Nat)
    (chunk : Option (List Nat)) : List (List Nat) × AuthResult :=
  match chunk with
  | none => ([], .readErr)
  | some buf =>
    if buf.length < 2 ∨ buf.getD 0 0 ≠ 1 then ([], .invalidVersion)
    else
      let userLen := buf.getD 1 0
      if buf.length < 2 + userLen + 1 then ([], .invalidUserLen)
      else
        let username := (buf.drop 2).take userLen
        let passLen := buf.getD (2 + userLen) 0
        if buf.length < 2 + userLen + 1 + passLen then ([], .invalidPassLen)
        else
          let password := (buf.drop (2 + userLen + 1)).take passLen
          if username = cfgUser ∧ password = cfgPass then ([[1, 0]], .success)
          else ([[1, 1]], .failure)

/-- Request phase of `(s *reverseSocks5Server) handleConnection`
(src/main.go lines 1184 to 1259): same checks, parsing and replies as
the socks5 variant; the DNS lookup of lines 1230 to 1235 only logs and
the dial goes through the local stack with a 30 second timeout, which
is not observable in the writes or the outcome. -/
def reverseRequestPhase (reads : List (Option (List Nat))) (dialOk : Bool) :
    List (List Nat) × S5Outcome :=
  match reads with
  | [] => ([], .requestReadErr)
  | none :: _ => ([], .requestReadErr)
  | some buf :: _ =>
    if buf.length < 4 ∨ buf.getD 0 0 ≠ 5 ∨ buf.getD 1 0 ≠ 1 then ([], .invalidRequest)
    else
      match parseTargetAddr buf with
      | .parsed a =>
        if dialOk then ([[5, 0, 0, 1, 0, 0, 0, 0, 0, 0]], .dataPhase a)
        else ([[5, 5, 0, 1, 0, 0, 0, 0, 0, 0]], .dialFailed a)
      | r => ([], .addrErr r)

/-- Continuation of the reverse handler after the method scan
(src/main.go lines 1166 to 1259). -/
def reverseAfterMethodSelection (cfgUser cfgPass : List Nat) (selected : Nat)
    (rest : List (Option (List Nat))) (dialOk : Bool) :
    List (List Nat) × S5Outcome :=
  if selected = 255 then ([[5, 255]], .noAcceptableMethods)
  else if selected = 2 then
    match rest with
    | [] => ([[5, 2]], .authFailed .readErr)
    | c :: rest2 =>
      let ar := reverseHandleUsernamePasswordAuth cfgUser cfgPass c
      if ar.2 = .success then
        ([5, 2] :: (ar.1 ++ (reverseRequestPhase rest2 dialOk).1),
          (reverseRequestPhase rest2 dialOk).2)
      else ([5, 2] :: ar.1, .authFailed ar.2)
  else ([5, selected] :: (reverseRequestPhase rest dialOk).1,
    (reverseRequestPhase rest dialOk).2)

/-- Embedding of `(s *reverseSocks5Server) handleConnection`
(src/main.go lines 1124 to 1282); the greeting, method selection and
auth logic duplicate the socks5 variant line for line. -/
def reverseSocks5HandleConnection (cfgUser cfgPass : List Nat)
    (reads : List (Option (List Nat))) (dialOk : Bool) :
    List (List Nat) × S5Outcome :=
  match reads with
  | [] => ([], .greetingReadErr)
  | none :: _ => ([], .greetingReadErr)
  | some buf :: rest =>
    if buf.length < 2 ∨ buf.getD 0 0 ≠ 5 then ([], .invalidVersion)
    else if buf.length < 2 + buf.getD 1 0 then ([], .invalidMethods)
    else reverseAfterMethodSelection cfgUser cfgPass
      (selectedMethod cfgUser cfgPass buf) rest dialOk

/-- One INI section: its name and its key and value pairs. -/
structure IniSection where
  name : String
  keys : List (String × String)
deriving DecidableEq

/-- Presence of a key in a section, mirroring `section.HasKey`. -/
def hasKey (s : IniSection) (k : String) : Bool :=
  s.keys.any (fun p => p.1 == k)

/-- Value of a key, mirroring the chain of a Key call and a String
call of the ini library, which yields the empty string for a missing
key. -/
def keyString (s : IniSection) (k : String) : String :=
  match s.keys.find? (fun p => p.1 == k) with
  | some p => p.2
  | none => ""

/-- Classification a section receives in the config loop of
src/main.go lines 702 to 732 (src/spf.go lines 102 to 132 are
identical): DEFAULT and common are skipped, then a section with both a
user key and a password key is a server, else a section with both a
server key and a direction key is a forward, else it is ignored. -/
inductive SectionKind
  | skipped
  | server
  | forward
  | ignored
deriving DecidableEq

/-- Embedding of the classification branch structure of the config
loop (src/main.go lines 702 to 732). -/
def classifySection (s : IniSection) : SectionKind :=
  if s.name = "DEFAULT" ∨ s.name = "common" then .skipped
  else if hasKey s "user" && hasKey s "password" then .server
  else if hasKey s "server" && hasKey s "direction" then .forward
  else .ignored

/-- Parsed server section (src/main.go lines 707 to 717): the port
defaults to 22 when the key is absent or empty. -/
structure ServerConfigM where
  server : String
  user : String
  password : String
  port : String
deriving DecidableEq

/-- Parsed forward section (src/main.go lines 718 to 731). -/
structure ForwardConfigM where
  sectionName : String
  serverName : String
  remoteIP : String
  remotePort : String
  localIP : String
  localPort : String
  direction : String
  socks5User : String
  socks5Pass : String
deriving DecidableEq

/-- Field extraction for a section classified as a server. -/
def parseServerSection (s : IniSection) : ServerConfigM :=
  let port := keyString s "port"
  { server := keyString s "server"
    user := keyString s "user"
    password := keyString s "password"
    port := if port = "" then "22" else port }

/-- Field extraction for a section classified as a forward. -/
def parseForwardSection (s : IniSection) : ForwardConfigM :=
  { sectionName := s.name
    serverName := keyString s "server"
    remoteIP := keyString s "remoteIP"
    remotePort := keyString s "remotePort"
    localIP := keyString s "localIP"
    localPort := keyString s "localPort"
    direction := keyString s "direction"
    socks5User := keyString s "socks5User"
    socks5Pass := keyString s "socks5Pass" }

/-- Embedding of the whole config loop of src/main.go lines 702 to
732: every section is classified and either stored in the server map,
appended to the forward list, or dropped.  No field of a forward
section, the direction included, is validated here. -/
def loadConfig (sections : List IniSection) :
    List (String × ServerConfigM) × List ForwardConfigM :=
  sections.foldl
    (fun acc s =>
      match classifySection s with
      | .server => (acc.1 ++ [(s.name, parseServerSection s)], acc.2)
      | .forward => (acc.1, acc.2 ++ [parseForwardSection s])
      | _ => acc)
    ([], [])

/-- Action taken by `connectAndForward` for a direction value
(src/main.go lines 780 to 791). -/
inductive DirAction
  | remoteForward
  | localForward
  | socks5Proxy
  | reverseSocks5Proxy
  | invalidDirection (d : String)
deriving DecidableEq

/-- Embedding of the direction switch of `connectAndForward`
(src/main.go lines 780 to 791): any direction other than the four
known ones is rejected only here, at runtime, with an invalid
direction error. -/
def dispatchDirection (d : String) : DirAction :=
  if d = "remote" then .remoteForward
  else if d = "local" then .localForward
  else if d = "socks5" then .socks5Proxy
  else if d = "reverse-socks5" then .reverseSocks5Proxy
  else .invalidDirection d

/-- State of the shared SSH connection pool: the map from server name
to client, with clients named by numeric identifiers, plus the set of
identifiers on which Close was called.  Every stored client is
non-nil in the source, so the `conn != nil` guards always pass. -/
structure CMState where
  connections : List (String × Nat)
  closed : List Nat
deriving DecidableEq

/-- Lookup in the connection map. -/
def lookupConn : List (String × Nat) → String → Option Nat
  | [], _ => none
  | (k, v) :: rest, name => if k = name then some v else lookupConn rest name

/-- Deletion from the connection map, mirroring the delete builtin. -/
def deleteConn : List (String × Nat) → String → List (String × Nat)
  | [], _ => []
  | (k, v) :: rest, name =>
    if k = name then deleteConn rest name else (k, v) :: deleteConn rest name

/-- Embedding of `ConnectionManager.RemoveConnection` (src/main.go
lines 1438 to 1447): close the client when the entry exists, then
delete the entry. -/
def removeConnection (st : CMState) (name : String) : CMState :=
  match lookupConn st.connections name with
  | some cid => { connections := deleteConn st.connections name, closed := cid :: st.closed }
  | none => { st with connections := deleteConn st.connections name }

/-- Embedding of the cleanup label of
`ConnectionManager.monitorConnection` (src/main.go lines 1418 to
1422), reached when the keep-alive request fails: the entry is deleted
from the map and nothing else happens; in particular Close is never
called on the client. -/
def monitorCleanup (st : CMState) (name : String) : CMState :=
  { st with connections := deleteConn st.connections name }

/-- Embedding of `ConnectionManager.GetConnection` together with
`createConnection` (src/main.go lines 1341 to 1392): an existing entry
is returned as is, otherwise a fresh client is dialed and stored.  The
returned Bool records whether a new dial happened. -/
def getConnection (st : CMState) (name : String) (freshId : Nat) :
    CMState × Nat × Bool :=
  match lookupConn st.connections name with
  | some cid => (st, cid, false)
  | none => ({ st with connections := (name, freshId) :: st.connections }, freshId, true)

/-- Forward entry held by a library instance: its section name and the
server it references. -/
structure ForwardRef where
  sectionName : String
  serverName : String
deriving DecidableEq

/-- Observable state of one library instance (src/spf.go): the server
names of its config, its forward configs, the running flag, the list
of supervisor goroutines launched so far (by section name, in launch
order), the cancellation flag of its context, and the server names
with open pooled connections. -/
structure SPFInstanceM where
  serverNames : List String
  forwards : List ForwardRef
  running : Bool
  launched : List String
  cancelled : Bool
  poolConnections : List String
deriving DecidableEq

/-- Embedding of `SPF_Start` on an existing instance (src/spf.go lines
148 to 166): under the instance lock, an already running instance
returns 0 untouched; otherwise one supervisor is launched per forward
whose server name is known, and the running flag is set. -/
def spfStart (inst : SPFInstanceM) : SPFInstanceM × Int :=
  if inst.running then (inst, 0)
  else
    ({ inst with
        running := true
        launched := inst.launched ++ inst.forwards.filterMap (fun fc =>
          if inst.serverNames.contains fc.serverName then some fc.sectionName else none) },
      0)

/-- Embedding of `SPF_Stop` on an existing instance (src/spf.go lines
179 to 190): under the instance lock, an already stopped instance
returns 0 untouched; otherwise the context is cancelled, every pooled
connection is closed, and the running flag is cleared. -/
def spfStop (inst : SPFInstanceM) : SPFInstanceM × Int :=
  if inst.running then
    ({ inst with cancelled := true, poolConnections := [], running := false }, 0)
  else (inst, 0)

/-! Helper lemmas shared by several claims. -/

/-- Values the method scan can return: a hit gives `want`, otherwise
the sentinel 0xFF survives. -/
theorem selectLoop_eq_or (want : Nat) (ms : List Nat) :
    selectLoop want ms = want ∨ selectLoop want ms = 255 := by
  induction ms with
  | nil => exact Or.inr rfl
  | cons m rest ih =>
    by_cases h : m = want
    · simp [selectLoop, h]
    · simpa [selectLoop, h] using ih

/-- Offering `want` makes the scan select it. -/
theorem selectLoop_of_contains (want : Nat) (ms : List Nat)
    (h : ms.contains want = true) : selectLoop want ms = want := by
  induction ms with
  | nil => simp [List.contains] at h
  | cons m rest ih =>
    by_cases hm : m = want
    · simp [selectLoop, hm]
    · have : rest.contains want = true := by
        simpa [List.contains_cons, hm, Ne.symm hm] using h
      simpa [selectLoop, hm] using ih this

/-- Not offering `want` leaves the sentinel 0xFF. -/
theorem selectLoop_of_not_contains (want : Nat) (ms : List Nat)
    (h : ms.contains want = false) : selectLoop want ms = 255 := by
  induction ms with
  | nil => rfl
  | cons m rest ih =>
    rw [List.contains_cons, Bool.or_eq_false_iff] at h
    have hm : ¬ m = want := by
      intro e
      subst e
      simp at h
    simpa [selectLoop, hm] using ih h.2

/-- With both credentials configured the scan looks for 0x02. -/
theorem selectedMethod_auth (u p buf : List Nat) (hu : u ≠ []) (hp : p ≠ []) :
    selectedMethod u p buf = selectLoop 2 ((buf.drop 2).take (buf.getD 1 0)) := by
  obtain ⟨a, as, rfl⟩ := List.exists_cons_of_ne_nil hu
  obtain ⟨b, bs, rfl⟩ := List.exists_cons_of_ne_nil hp
  simp [selectedMethod]

/-- With at most one credential configured the scan looks for 0x00. -/
theorem selectedMethod_noauth (u p buf : List Nat) (h : u = [] ∨ p = []) :
    selectedMethod u p buf = selectLoop 0 ((buf.drop 2).take (buf.getD 1 0)) := by
  rcases h with h | h <;> subst h <;> simp [selectedMethod]

/-- A greeting of NMETHODS zero scans an empty slice, so the sentinel
survives in both credential configurations. -/
theorem selectedMethod_nil (u p buf : List Nat) (h : buf.getD 1 0 = 0) :
    selectedMethod u p buf = 255 := by
  simp only [selectedMethod, h, List.take_zero]
  simp [selectLoop]

/-- Reduction of the socks5 handler past a well-formed greeting. -/
theorem socks5_greeting_reduce (u p buf : List Nat)
    (rest : List (Option (List Nat))) (d : Bool)
    (h2 : 2 ≤ buf.length) (h5 : buf.getD 0 0 = 5)
    (hm : 2 + buf.getD 1 0 ≤ buf.length) :
    socks5HandleConnection u p (some buf :: rest) d =
      afterMethodSelection u p (selectedMethod u p buf) rest d := by
  simp only [socks5HandleConnection]
  rw [if_neg (not_or.mpr ⟨Nat.not_lt.mpr h2, not_not.mpr h5⟩), if_neg (Nat.not_lt.mpr hm)]

/-- Reduction of the reverse handler past a well-formed greeting. -/
theorem reverse_greeting_reduce (u p buf : List Nat)
    (rest : List (Option (List Nat))) (d : Bool)
    (h2 : 2 ≤ buf.length) (h5 : buf.getD 0 0 = 5)
    (hm : 2 + buf.getD 1 0 ≤ buf.length) :
    reverseSocks5HandleConnection u p (some buf :: rest) d =
      reverseAfterMethodSelection u p (selectedMethod u p buf) rest d := by
  simp only [reverseSocks5HandleConnection]
  rw [if_neg (not_or.mpr ⟨Nat.not_lt.mpr h2, not_not.mpr h5⟩), if_neg (Nat.not_lt.mpr hm)]

/-- The request phase never produces an auth failure outcome. -/
theorem requestPhase_not_authFailed (rs : List (Option (List Nat))) (d : Bool)
    (r : AuthResult) : (requestPhase rs d).2 ≠ S5Outcome.authFailed r := by
  match rs with
  | [] => simp [requestPhase]
  | none :: _ => simp [requestPhase]
  | some buf :: t =>
    simp only [requestPhase]
    split
    · simp
    · split
      · split <;> simp
      · simp

/-- The reverse request phase never produces an auth failure outcome. -/
theorem reverseRequestPhase_not_authFailed (rs : List (Option (List Nat))) (d : Bool)
    (r : AuthResult) : (reverseRequestPhase rs d).2 ≠ S5Outcome.authFailed r := by
  match rs with
  | [] => simp [reverseRequestPhase]
  | none :: _ => simp [reverseRequestPhase]
  | some buf :: t =>
    simp only [reverseRequestPhase]
    split
    · simp
    · split
      · split <;> simp
      · simp

/-- Deleting a key removes every binding of that key. -/
theorem lookupConn_deleteConn (l : List (String × Nat)) (name : String) :
    lookupConn (deleteConn l name) name = none := by
  induction l with
  | nil => rfl
  | cons kv rest ih =>
    by_cases h : kv.1 = name
    · simpa [deleteConn, h] using ih
    · simpa [deleteConn, lookupConn, h] using ih

/-! Claim theorems. -/

/-- C1: a SOCKS5 CONNECT request with ATYP 0x03 whose length byte is
255 is never accepted by the code: the request is read in a single
Read into a 256-byte buffer, so the bytes available satisfy
n less-or-equal 256, while the domain branch requires n at least
5 + 255 + 2 = 262; the handler therefore always rejects the request
with the incomplete domain name error, contradicting the claim (and
the specification), which demand that such a request be accepted and
its 255 domain bytes and port be parsed. -/
theorem C1_domain_len_255_always_incomplete (buf : List Nat)
    (rest : List (Option (List Nat))) (dialOk : Bool)
    (hcap : buf.length ≤ 256) (h0 : buf.getD 0 0 = 5) (h1 : buf.getD 1 0 = 1)
    (h4 : 4 ≤ buf.length) (hat : buf.getD 3 0 = 3) (hlen : buf.getD 4 0 = 255) :
    requestPhase (some buf :: rest) dialOk =
      ([], S5Outcome.addrErr ReqOutcome.incompleteDomain) := by
  have hn5 : 5 ≤ buf.length := by
    by_contra hlt
    rw [List.getD_eq_default _ _ (by omega)] at hlen
    exact absurd hlen (by norm_num)
  have hp : parseTargetAddr buf = ReqOutcome.incompleteDomain := by
    simp only [parseTargetAddr, hat, hlen]
    split_ifs <;> first | rfl | (exfalso; omega)
  simp only [requestPhase,
    if_neg (not_or.mpr ⟨Nat.not_lt.mpr h4, not_or.mpr ⟨not_not.mpr h0, not_not.mpr h1⟩⟩), hp]

/-- Witness for C1 at a concrete request read. -/
theorem C1_domain_len_255_always_incomplete_witness :
    requestPhase [some [5, 1, 0, 3, 255]] true =
      ([], S5Outcome.addrErr ReqOutcome.incompleteDomain) :=
  C1_domain_len_255_always_incomplete [5, 1, 0, 3, 255] [] true (by decide) (by decide)
    (by decide) (by decide) (by decide) (by decide)

/-- C2 counterexample: a BIND request (CMD 0x02) after an
unauthenticated greeting yields only the method selection reply 05 00;
no write carries the reply code 0x07, refuting the claim that the
server writes a command-not-supported reply. -/
theorem C2_bind_counterexample :
    socks5HandleConnection [] [] [some [5, 1, 0], some [5, 2, 0, 1, 127, 0, 0, 1, 0, 80]] true
      = ([[5, 0]], S5Outcome.invalidRequest) ∧
    (socks5HandleConnection [] [] [some [5, 1, 0], some [5, 2, 0, 1, 127, 0, 0, 1, 0, 80]]
      true).1.all (fun w => w.getD 1 0 != 7) = true := by
  constructor
  · rfl
  · rfl

/-- C2 amended: for every request read whose CMD byte differs from
0x01, the handler returns the invalid request error without writing
any reply at all (in particular no 0x07 reply) and the connection is
closed. -/
theorem C2_cmd_not_connect_closes_without_reply (buf : List Nat)
    (rest : List (Option (List Nat))) (dialOk : Bool)
    (_h4 : 4 ≤ buf.length) (_h0 : buf.getD 0 0 = 5) (hc : buf.getD 1 0 ≠ 1) :
    requestPhase (some buf :: rest) dialOk = ([], S5Outcome.invalidRequest) := by
  simp only [requestPhase, if_pos (Or.inr (Or.inr hc))]

/-- Witness for the amended C2 at a concrete BIND request. -/
theorem C2_cmd_not_connect_closes_without_reply_witness :
    requestPhase [some [5, 2, 0, 1, 127, 0, 0, 1, 0, 80]] true =
      ([], S5Outcome.invalidRequest) :=
  C2_cmd_not_connect_closes_without_reply [5, 2, 0, 1, 127, 0, 0, 1, 0, 80] [] true
    (by decide) (by decide) (by decide)

/-- C5 counterexample: a request with ATYP 0x09 after an
unauthenticated greeting yields only the method selection reply 05 00;
no write carries the reply code 0x08, refuting the claim that the
server writes an address-type-not-supported reply. -/
theorem C5_atyp_counterexample :
    socks5HandleConnection [] [] [some [5, 1, 0], some [5, 1, 0, 9, 1, 2, 3, 4, 0, 80]] true
      = ([[5, 0]], S5Outcome.addrErr (ReqOutcome.unsupportedAtyp 9)) ∧
    (socks5HandleConnection [] [] [some [5, 1, 0], some [5, 1, 0, 9, 1, 2, 3, 4, 0, 80]]
      true).1.all (fun w => w.getD 1 0 != 8) = true := by
  constructor
  · rfl
  · rfl

/-- C5 amended: for every request read whose ATYP byte is none of
0x01, 0x03, 0x04, the handler returns the unsupported address type
error without writing any reply at all (in particular no 0x08 reply)
and the connection is closed. -/
theorem C5_unsupported_atyp_closes_without_reply (buf : List Nat)
    (rest : List (Option (List Nat))) (dialOk : Bool)
    (h4 : 4 ≤ buf.length) (h0 : buf.getD 0 0 = 5) (h1 : buf.getD 1 0 = 1)
    (ha1 : buf.getD 3 0 ≠ 1) (ha3 : buf.getD 3 0 ≠ 3) (ha4 : buf.getD 3 0 ≠ 4) :
    requestPhase (some buf :: rest) dialOk =
      ([], S5Outcome.addrErr (ReqOutcome.unsupportedAtyp (buf.getD 3 0))) := by
  have hp : parseTargetAddr buf = ReqOutcome.unsupportedAtyp (buf.getD 3 0) := by
    simp only [parseTargetAddr, if_neg ha1, if_neg ha3, if_neg ha4]
  simp only [requestPhase,
    if_neg (not_or.mpr ⟨Nat.not_lt.mpr h4, not_or.mpr ⟨not_not.mpr h0, not_not.mpr h1⟩⟩), hp]

/-- Witness for the amended C5 at a concrete ATYP 0x09 request. -/
theorem C5_unsupported_atyp_closes_without_reply_witness :
    requestPhase [some [5, 1, 0, 9, 1, 2, 3, 4, 0, 80]] true =
      ([], S5Outcome.addrErr (ReqOutcome.unsupportedAtyp 9)) :=
  C5_unsupported_atyp_closes_without_reply [5, 1, 0, 9, 1, 2, 3, 4, 0, 80] [] true
    (by decide) (by decide) (by decide) (by decide) (by decide) (by decide)

/-- C3 counterexample: a section holding a user key and a private_key
key but no password key satisfies the claimed classifier (user and
either password or private_key) yet is not classified as a server
section by the code, refuting the claim. -/
theorem C3_private_key_counterexample :
    hasKey ⟨"edge1", [("user", "alice"), ("private_key", "k")]⟩ "user" = true ∧
    hasKey ⟨"edge1", [("user", "alice"), ("private_key", "k")]⟩ "private_key" = true ∧
    hasKey ⟨"edge1", [("user", "alice"), ("private_key", "k")]⟩ "password" = false ∧
    classifySection ⟨"edge1", [("user", "alice"), ("private_key", "k")]⟩ ≠
      SectionKind.server := by
  refine ⟨rfl, rfl, rfl, ?_⟩
  decide

/-- C3 amended: outside the skipped DEFAULT and common sections, a
section is classified as a ServerConfig exactly when it contains both
a user key and a password key; a private_key key plays no role, so a
section with user and private_key but no password is not a
ServerConfig. -/
theorem C3_server_iff_user_and_password (s : IniSection)
    (hd : s.name ≠ "DEFAULT") (hc : s.name ≠ "common") :
    classifySection s = SectionKind.server ↔
      (hasKey s "user" = true ∧ hasKey s "password" = true) := by
  simp only [classifySection, if_neg (not_or.mpr ⟨hd, hc⟩)]
  by_cases hb : (hasKey s "user" && hasKey s "password") = true
  · rw [if_pos hb]
    rw [Bool.and_eq_true] at hb
    simp [hb]
  · rw [if_neg hb]
    rw [Bool.and_eq_true] at hb
    have hne : (if (hasKey s "server" && hasKey s "direction") = true
        then SectionKind.forward else SectionKind.ignored) ≠ SectionKind.server := by
      split <;> simp
    simp only [hne, false_iff]
    exact hb

/-- Witness for the amended C3 at a concrete server section. -/
theorem C3_server_iff_user_and_password_witness :
    classifySection ⟨"edge1", [("user", "alice"), ("password", "pw")]⟩ =
      SectionKind.server :=
  (C3_server_iff_user_and_password ⟨"edge1", [("user", "alice"), ("password", "pw")]⟩
    (by decide) (by decide)).mpr ⟨rfl, rfl⟩

/-- C4 counterexample: with one pooled connection, the cleanup the
keep-alive monitor runs on failure merely deletes the map entry and
closes nothing, while an eviction with the semantics of remove also
closes the client; the two results differ, refuting the claim that
the keep-alive path evicts with the semantics of remove. -/
theorem C4_keepalive_counterexample :
    monitorCleanup ⟨[("srv", 0)], []⟩ "srv" = ⟨[], []⟩ ∧
    removeConnection ⟨[("srv", 0)], []⟩ "srv" = ⟨[], [0]⟩ ∧
    monitorCleanup ⟨[("srv", 0)], []⟩ "srv" ≠ removeConnection ⟨[("srv", 0)], []⟩ "srv" := by
  refine ⟨rfl, rfl, ?_⟩
  decide

/-- C4 amended: when a keep-alive request fails, the monitor drops the
entry from the pool map without closing the SSH client (the closed set
is unchanged); a subsequent get for that server finds no entry and
re-dials, storing the fresh client. -/
theorem C4_keepalive_drops_entry_without_close (st : CMState) (name : String)
    (fresh : Nat) :
    (monitorCleanup st name).closed = st.closed ∧
    lookupConn (monitorCleanup st name).connections name = none ∧
    getConnection (monitorCleanup st name) name fresh =
      (⟨(name, fresh) :: deleteConn st.connections name, st.closed⟩, fresh, true) := by
  refine ⟨rfl, lookupConn_deleteConn _ _, ?_⟩
  simp only [getConnection, monitorCleanup, lookupConn_deleteConn]

/-- C8 counterexample: a section with a server key and the unknown
direction value bogus is accepted by the configuration loop (it is
classified as a forward and stored), so an unknown direction does not
fail configuration validation; it is only rejected later, at runtime,
by the direction switch of connectAndForward. -/
theorem C8_unknown_direction_counterexample :
    (loadConfig [⟨"fwd1", [("server", "edge1"), ("direction", "bogus")]⟩]).2 =
      [parseForwardSection ⟨"fwd1", [("server", "edge1"), ("direction", "bogus")]⟩] ∧
    dispatchDirection "bogus" = DirAction.invalidDirection "bogus" := by
  constructor
  · rfl
  · rfl

/-- C8 amended: any section classified as a forward is stored by the
loader whatever its direction value is, and a direction outside the
four known values is rejected only by the runtime switch of
connectAndForward, which returns the invalid direction error. -/
theorem C8_unknown_direction_accepted_until_runtime :
    (∀ s : IniSection, classifySection s = SectionKind.forward →
      (loadConfig [s]).2 = [parseForwardSection s]) ∧
    (∀ d : String, d ≠ "remote" → d ≠ "local" → d ≠ "socks5" → d ≠ "reverse-socks5" →
      dispatchDirection d = DirAction.invalidDirection d) := by
  constructor
  · intro s h
    simp [loadConfig, h]
  · intro d h1 h2 h3 h4
    simp [dispatchDirection, h1, h2, h3, h4]

/-- Witness for the amended C8 at a concrete section and direction. -/
theorem C8_unknown_direction_accepted_until_runtime_witness :
    (loadConfig [⟨"fwd2", [("server", "edge1"), ("direction", "up")]⟩]).2 =
      [parseForwardSection ⟨"fwd2", [("server", "edge1"), ("direction", "up")]⟩] ∧
    dispatchDirection "up" = DirAction.invalidDirection "up" :=
  ⟨C8_unknown_direction_accepted_until_runtime.1
      ⟨"fwd2", [("server", "edge1"), ("direction", "up")]⟩ rfl,
    C8_unknown_direction_accepted_until_runtime.2 "up"
      (by decide) (by decide) (by decide) (by decide)⟩

/-- C9: the control interface is idempotent on an existing instance:
SPF_Start on a running instance returns 0 and changes nothing (no
supervisor is launched a second time), and SPF_Stop on a stopped
instance returns 0 and changes nothing. -/
theorem C9_start_stop_idempotent :
    (∀ inst : SPFInstanceM, inst.running = true → spfStart inst = (inst, 0)) ∧
    (∀ inst : SPFInstanceM, inst.running = false → spfStop inst = (inst, 0)) := by
  constructor
  · intro inst h
    simp [spfStart, h]
  · intro inst h
    simp [spfStop, h]

/-- Witness for C9 at concrete running and stopped instances. -/
theorem C9_start_stop_idempotent_witness :
    spfStart ⟨["s"], [⟨"f", "s"⟩], true, ["f"], false, ["s"]⟩ =
      (⟨["s"], [⟨"f", "s"⟩], true, ["f"], false, ["s"]⟩, 0) ∧
    spfStop ⟨["s"], [⟨"f", "s"⟩], false, [], true, []⟩ =
      (⟨["s"], [⟨"f", "s"⟩], false, [], true, []⟩, 0) :=
  ⟨C9_start_stop_idempotent.1 ⟨["s"], [⟨"f", "s"⟩], true, ["f"], false, ["s"]⟩ rfl,
    C9_start_stop_idempotent.2 ⟨["s"], [⟨"f", "s"⟩], false, [], true, []⟩ rfl⟩

/-- Selection reply for method 0x00: the handler writes 05 00 and
proceeds directly to the request phase. -/
theorem afterMethodSelection_zero (u p : List Nat)
    (rest : List (Option (List Nat))) (d : Bool) :
    afterMethodSelection u p 0 rest d =
      ([5, 0] :: (requestPhase rest d).1, (requestPhase rest d).2) := rfl

/-- Selection sentinel 0xFF: the handler writes 05 FF and terminates. -/
theorem afterMethodSelection_255 (u p : List Nat)
    (rest : List (Option (List Nat))) (d : Bool) :
    afterMethodSelection u p 255 rest d =
      ([[5, 255]], S5Outcome.noAcceptableMethods) := rfl

/-- Reverse handler, selection reply for method 0x00. -/
theorem reverseAfterMethodSelection_zero (u p : List Nat)
    (rest : List (Option (List Nat))) (d : Bool) :
    reverseAfterMethodSelection u p 0 rest d =
      ([5, 0] :: (reverseRequestPhase rest d).1, (reverseRequestPhase rest d).2) := rfl

/-- Reverse handler, selection sentinel 0xFF. -/
theorem reverseAfterMethodSelection_255 (u p : List Nat)
    (rest : List (Option (List Nat))) (d : Bool) :
    reverseAfterMethodSelection u p 255 rest d =
      ([[5, 255]], S5Outcome.noAcceptableMethods) := rfl

/-- First write after any successful method selection is the
two-byte selection reply. -/
theorem afterMethodSelection_head (u p : List Nat) (sel : Nat)
    (rest : List (Option (List Nat))) (d : Bool) (h : ¬ sel = 255) :
    (afterMethodSelection u p sel rest d).1.head? = some [5, sel] := by
  simp only [afterMethodSelection, if_neg h]
  by_cases h2 : sel = 2
  · subst h2
    rw [if_pos rfl]
    cases rest with
    | nil => rfl
    | cons c rest2 =>
      dsimp only
      split <;> rfl
  · rw [if_neg h2]
    rfl

/-- C6: method selection of the socks5 handler.  With credentials
configured, 0x02 is selected when offered and otherwise the handler
replies 05 FF and terminates; without credentials, 0x00 is selected
when offered and otherwise the handler replies 05 FF and terminates;
and a greeting with NMETHODS zero always yields 05 FF followed by
termination. -/
theorem C6_method_selection :
    (∀ u p buf rest d, u ≠ [] → p ≠ [] →
      2 ≤ buf.length → buf.getD 0 0 = 5 → 2 + buf.getD 1 0 ≤ buf.length →
      ((buf.drop 2).take (buf.getD 1 0)).contains 2 = true →
      (socks5HandleConnection u p (some buf :: rest) d).1.head? = some [5, 2]) ∧
    (∀ u p buf rest d, u ≠ [] → p ≠ [] →
      2 ≤ buf.length → buf.getD 0 0 = 5 → 2 + buf.getD 1 0 ≤ buf.length →
      ((buf.drop 2).take (buf.getD 1 0)).contains 2 = false →
      socks5HandleConnection u p (some buf :: rest) d =
        ([[5, 255]], S5Outcome.noAcceptableMethods)) ∧
    (∀ u p buf rest d, u = [] ∨ p = [] →
      2 ≤ buf.length → buf.getD 0 0 = 5 → 2 + buf.getD 1 0 ≤ buf.length →
      ((buf.drop 2).take (buf.getD 1 0)).contains 0 = true →
      (socks5HandleConnection u p (some buf :: rest) d).1.head? = some [5, 0]) ∧
    (∀ u p buf rest d, u = [] ∨ p = [] →
      2 ≤ buf.length → buf.getD 0 0 = 5 → 2 + buf.getD 1 0 ≤ buf.length →
      ((buf.drop 2).take (buf.getD 1 0)).contains 0 = false →
      socks5HandleConnection u p (some buf :: rest) d =
        ([[5, 255]], S5Outcome.noAcceptableMethods)) ∧
    (∀ u p buf rest d,
      2 ≤ buf.length → buf.getD 0 0 = 5 → buf.getD 1 0 = 0 →
      socks5HandleConnection u p (some buf :: rest) d =
        ([[5, 255]], S5Outcome.noAcceptableMethods)) := by
  refine ⟨?_, ?_, ?_, ?_, ?_⟩
  · intro u p buf rest d hu hp h2 h5 hm hc
    rw [socks5_greeting_reduce u p buf rest d h2 h5 hm,
      selectedMethod_auth u p buf hu hp, selectLoop_of_contains 2 _ hc]
    exact afterMethodSelection_head u p 2 rest d (by norm_num)
  · intro u p buf rest d hu hp h2 h5 hm hc
    rw [socks5_greeting_reduce u p buf rest d h2 h5 hm,
      selectedMethod_auth u p buf hu hp, selectLoop_of_not_contains 2 _ hc,
      afterMethodSelection_255]
  · intro u p buf rest d hup h2 h5 hm hc
    rw [socks5_greeting_reduce u p buf rest d h2 h5 hm,
      selectedMethod_noauth u p buf hup, selectLoop_of_contains 0 _ hc,
      afterMethodSelection_zero]
    rfl
  · intro u p buf rest d hup h2 h5 hm hc
    rw [socks5_greeting_reduce u p buf rest d h2 h5 hm,
      selectedMethod_noauth u p buf hup, selectLoop_of_not_contains 0 _ hc,
      afterMethodSelection_255]
  · intro u p buf rest d h2 h5 hz
    rw [socks5_greeting_reduce u p buf rest d h2 h5 (by omega),
      selectedMethod_nil u p buf hz, afterMethodSelection_255]

/-- Witness for C6 instantiating all five parts. -/
theorem C6_method_selection_witness :
    (socks5HandleConnection [117] [112] [some [5, 1, 2]] true).1.head? = some [5, 2] ∧
    socks5HandleConnection [117] [112] [some [5, 1, 0]] true =
      ([[5, 255]], S5Outcome.noAcceptableMethods) ∧
    (socks5HandleConnection [] [] [some [5, 1, 0]] true).1.head? = some [5, 0] ∧
    socks5HandleConnection [] [] [some [5, 1, 2]] true =
      ([[5, 255]], S5Outcome.noAcceptableMethods) ∧
    socks5HandleConnection [117] [112] [some [5, 0]] true =
      ([[5, 255]], S5Outcome.noAcceptableMethods) :=
  ⟨C6_method_selection.1 [117] [112] [5, 1, 2] [] true (by decide) (by decide)
      (by decide) (by decide) (by decide) (by decide),
    C6_method_selection.2.1 [117] [112] [5, 1, 0] [] true (by decide) (by decide)
      (by decide) (by decide) (by decide) (by decide),
    C6_method_selection.2.2.1 [] [] [5, 1, 0] [] true (Or.inl rfl)
      (by decide) (by decide) (by decide) (by decide),
    C6_method_selection.2.2.2.1 [] [] [5, 1, 2] [] true (Or.inl rfl)
      (by decide) (by decide) (by decide) (by decide),
    C6_method_selection.2.2.2.2 [117] [112] [5, 0] [] true
      (by decide) (by decide) (by decide)⟩

/-- C7: RFC 1929 sub-negotiation.  The parsed username and password
are compared byte-for-byte with the configured credentials: a match is
answered with 01 00 and the handler continues, any mismatch is
answered with 01 01 and the handler terminates with an auth failure,
never reaching the request or data phase; on success the handler
proceeds to the request phase. -/
theorem C7_userpass_auth :
    (∀ cfgU cfgP buf : List Nat, 2 ≤ buf.length → buf.getD 0 0 = 1 →
      2 + buf.getD 1 0 + 1 ≤ buf.length →
      2 + buf.getD 1 0 + 1 + buf.getD (2 + buf.getD 1 0) 0 ≤ buf.length →
      handleUsernamePasswordAuth cfgU cfgP (some buf) =
        (if (buf.drop 2).take (buf.getD 1 0) = cfgU ∧
            (buf.drop (2 + buf.getD 1 0 + 1)).take (buf.getD (2 + buf.getD 1 0) 0) = cfgP
          then ([[1, 0]], AuthResult.success)
          else ([[1, 1]], AuthResult.failure))) ∧
    (∀ u p gbuf abuf rest d, u ≠ [] → p ≠ [] →
      2 ≤ gbuf.length → gbuf.getD 0 0 = 5 → 2 + gbuf.getD 1 0 ≤ gbuf.length →
      ((gbuf.drop 2).take (gbuf.getD 1 0)).contains 2 = true →
      handleUsernamePasswordAuth u p abuf = ([[1, 1]], AuthResult.failure) →
      socks5HandleConnection u p (some gbuf :: abuf :: rest) d =
        ([[5, 2], [1, 1]], S5Outcome.authFailed AuthResult.failure)) ∧
    (∀ u p gbuf abuf rest d, u ≠ [] → p ≠ [] →
      2 ≤ gbuf.length → gbuf.getD 0 0 = 5 → 2 + gbuf.getD 1 0 ≤ gbuf.length →
      ((gbuf.drop 2).take (gbuf.getD 1 0)).contains 2 = true →
      handleUsernamePasswordAuth u p abuf = ([[1, 0]], AuthResult.success) →
      socks5HandleConnection u p (some gbuf :: abuf :: rest) d =
        ([5, 2] :: [1, 0] :: (requestPhase rest d).1, (requestPhase rest d).2)) := by
  refine ⟨?_, ?_, ?_⟩
  · intro cfgU cfgP buf h2 h01 hul hpl
    simp only [handleUsernamePasswordAuth]
    rw [if_neg (not_or.mpr ⟨Nat.not_lt.mpr h2, not_not.mpr h01⟩),
      if_neg (Nat.not_lt.mpr hul), if_neg (Nat.not_lt.mpr hpl)]
  · intro u p gbuf abuf rest d hu hp h2 h5 hm hc hauth
    rw [socks5_greeting_reduce u p gbuf (abuf :: rest) d h2 h5 hm,
      selectedMethod_auth u p gbuf hu hp, selectLoop_of_contains 2 _ hc]
    simp [afterMethodSelection, hauth]
  · intro u p gbuf abuf rest d hu hp h2 h5 hm hc hauth
    rw [socks5_greeting_reduce u p gbuf (abuf :: rest) d h2 h5 hm,
      selectedMethod_auth u p gbuf hu hp, selectLoop_of_contains 2 _ hc]
    simp [afterMethodSelection, hauth]

/-- Witness for C7 instantiating all three parts. -/
theorem C7_userpass_auth_witness :
    handleUsernamePasswordAuth [97] [98] (some [1, 1, 97, 1, 98]) =
      ([[1, 0]], AuthResult.success) ∧
    socks5HandleConnection [97] [98] [some [5, 1, 2], some [1, 1, 97, 1, 99]] true =
      ([[5, 2], [1, 1]], S5Outcome.authFailed AuthResult.failure) ∧
    socks5HandleConnection [97] [98]
        [some [5, 1, 2], some [1, 1, 97, 1, 98], some [5, 1, 0, 1, 9, 9, 9, 9, 0, 80]] true =
      ([5, 2] :: [1, 0] ::
          (requestPhase [some [5, 1, 0, 1, 9, 9, 9, 9, 0, 80]] true).1,
        (requestPhase [some [5, 1, 0, 1, 9, 9, 9, 9, 0, 80]] true).2) := by
  refine ⟨?_, ?_, ?_⟩
  · have h := C7_userpass_auth.1 [97] [98] [1, 1, 97, 1, 98]
      (by decide) (by decide) (by decide) (by decide)
    simpa using h
  · exact C7_userpass_auth.2.1 [97] [98] [5, 1, 2] (some [1, 1, 97, 1, 99]) [] true
      (by decide) (by decide) (by decide) (by decide) (by decide) (by decide) (by decide)
  · exact C7_userpass_auth.2.2 [97] [98] [5, 1, 2] (some [1, 1, 97, 1, 98])
      [some [5, 1, 0, 1, 9, 9, 9, 9, 0, 80]] true
      (by decide) (by decide) (by decide) (by decide) (by decide) (by decide) (by decide)

/-- C10: with exactly one of the two socks5 credentials non-empty,
both SOCKS5 servers behave as fully unauthenticated: they select
method 0x00 exactly when it is offered (replying 05 FF and terminating
otherwise), proceed directly to the request phase, and their outcome is
never an auth failure, so credentials are never requested or checked. -/
theorem C10_half_credentials_unauthenticated :
    (∀ u p gbuf rest d, (u = [] ∧ p ≠ []) ∨ (u ≠ [] ∧ p = []) →
      2 ≤ gbuf.length → gbuf.getD 0 0 = 5 → 2 + gbuf.getD 1 0 ≤ gbuf.length →
      ((gbuf.drop 2).take (gbuf.getD 1 0)).contains 0 = true →
      socks5HandleConnection u p (some gbuf :: rest) d =
          ([5, 0] :: (requestPhase rest d).1, (requestPhase rest d).2) ∧
      reverseSocks5HandleConnection u p (some gbuf :: rest) d =
          ([5, 0] :: (reverseRequestPhase rest d).1, (reverseRequestPhase rest d).2)) ∧
    (∀ u p gbuf rest d, (u = [] ∧ p ≠ []) ∨ (u ≠ [] ∧ p = []) →
      2 ≤ gbuf.length → gbuf.getD 0 0 = 5 → 2 + gbuf.getD 1 0 ≤ gbuf.length →
      ((gbuf.drop 2).take (gbuf.getD 1 0)).contains 0 = false →
      socks5HandleConnection u p (some gbuf :: rest) d =
          ([[5, 255]], S5Outcome.noAcceptableMethods) ∧
      reverseSocks5HandleConnection u p (some gbuf :: rest) d =
          ([[5, 255]], S5Outcome.noAcceptableMethods)) ∧
    (∀ u p reads d r, (u = [] ∧ p ≠ []) ∨ (u ≠ [] ∧ p = []) →
      (socks5HandleConnection u p reads d).2 ≠ S5Outcome.authFailed r ∧
      (reverseSocks5HandleConnection u p reads d).2 ≠ S5Outcome.authFailed r) := by
  refine ⟨?_, ?_, ?_⟩
  · intro u p gbuf rest d hhalf h2 h5 hm hc
    have hup : u = [] ∨ p = [] := hhalf.imp And.left And.right
    constructor
    · rw [socks5_greeting_reduce u p gbuf rest d h2 h5 hm,
        selectedMethod_noauth u p gbuf hup, selectLoop_of_contains 0 _ hc,
        afterMethodSelection_zero]
    · rw [reverse_greeting_reduce u p gbuf rest d h2 h5 hm,
        selectedMethod_noauth u p gbuf hup, selectLoop_of_contains 0 _ hc,
        reverseAfterMethodSelection_zero]
  · intro u p gbuf rest d hhalf h2 h5 hm hc
    have hup : u = [] ∨ p = [] := hhalf.imp And.left And.right
    constructor
    · rw [socks5_greeting_reduce u p gbuf rest d h2 h5 hm,
        selectedMethod_noauth u p gbuf hup, selectLoop_of_not_contains 0 _ hc,
        afterMethodSelection_255]
    · rw [reverse_greeting_reduce u p gbuf rest d h2 h5 hm,
        selectedMethod_noauth u p gbuf hup, selectLoop_of_not_contains 0 _ hc,
        reverseAfterMethodSelection_255]
  · intro u p reads d r hhalf
    have hup : u = [] ∨ p = [] := hhalf.imp And.left And.right
    constructor
    · match reads with
      | [] => simp [socks5HandleConnection]
      | none :: t => simp [socks5HandleConnection]
      | some buf :: rest =>
        simp only [socks5HandleConnection]
        split
        · simp
        · split
          · simp
          · rw [selectedMethod_noauth u p buf hup]
            rcases selectLoop_eq_or 0 ((buf.drop 2).take (buf.getD 1 0)) with h | h <;>
              rw [h]
            · rw [afterMethodSelection_zero]
              exact requestPhase_not_authFailed rest d r
            · rw [afterMethodSelection_255]
              simp
    · match reads with
      | [] => simp [reverseSocks5HandleConnection]
      | none :: t => simp [reverseSocks5HandleConnection]
      | some buf :: rest =>
        simp only [reverseSocks5HandleConnection]
        split
        · simp
        · split
          · simp
          · rw [selectedMethod_noauth u p buf hup]
            rcases selectLoop_eq_or 0 ((buf.drop 2).take (buf.getD 1 0)) with h | h <;>
              rw [h]
            · rw [reverseAfterMethodSelection_zero]
              exact reverseRequestPhase_not_authFailed rest d r
            · rw [reverseAfterMethodSelection_255]
              simp

/-- Witness for C10 instantiating all three parts. -/
theorem C10_half_credentials_unauthenticated_witness :
    (socks5HandleConnection [117] [] [some [5, 1, 0]] true =
        ([5, 0] :: (requestPhase [] true).1, (requestPhase [] true).2) ∧
      reverseSocks5HandleConnection [117] [] [some [5, 1, 0]] true =
        ([5, 0] :: (reverseRequestPhase [] true).1, (reverseRequestPhase [] true).2)) ∧
    (socks5HandleConnection [] [112] [some [5, 1, 2]] true =
        ([[5, 255]], S5Outcome.noAcceptableMethods) ∧
      reverseSocks5HandleConnection [] [112] [some [5, 1, 2]] true =
        ([[5, 255]], S5Outcome.noAcceptableMethods)) ∧
    ((socks5HandleConnection [117] [] [some [5, 1, 2]] true).2 ≠
        S5Outcome.authFailed AuthResult.failure ∧
      (reverseSocks5HandleConnection [117] [] [some [5, 1, 2]] true).2 ≠
        S5Outcome.authFailed AuthResult.failure) :=
  ⟨C10_half_credentials_unauthenticated.1 [117] [] [5, 1, 0] [] true
      (Or.inr ⟨by decide, rfl⟩) (by decide) (by decide) (by decide) (by decide),
    C10_half_credentials_unauthenticated.2.1 [] [112] [5, 1, 2] [] true
      (Or.inl ⟨rfl, by decide⟩) (by decide) (by decide) (by decide) (by decide),
    C10_half_credentials_unauthenticated.2.2 [117] [] [some [5, 1, 2]] true
      AuthResult.failure (Or.inr ⟨by decide, rfl⟩)⟩

end Spf
